import Mathlib

/-!
Verification of the email verification-code retrieval pipeline.

This file embeds, in Lean, the code of
`skills/job-apply/scripts/fetch_verification_code.py` (the code
extractor `extract_code`, the mailbox check `check_imap`, and the
polling `main`) and of the hand-off coordinator
`_check_email_for_code` in `tools/browser_utils.py`.

The regular expressions used by `extract_code` are embedded through a
small backtracking matcher whose semantics follow Python `re.search`
on these patterns: candidate start positions are scanned left to
right, alternation prefers its left branch, and quantifiers are greedy
with backtracking.  Character classes are translated with Python's
semantics for `str` patterns: `\s` is Python whitespace (ASCII
whitespace plus the Unicode space characters), `\d` is `0-9` (the
inputs of interest are ASCII; the exotic Unicode-only digit characters
are out of scope of this embedding), and `IGNORECASE` on the ASCII
letters of the patterns is ASCII case insensitivity.
-/

/-- Python whitespace for `str` regexes and `str.strip`: ASCII
whitespace plus the Unicode space characters. -/
def isPySpace (c : Char) : Bool :=
  c = ' ' || c = '\t' || c = '\n' || c = '\r' || c = '\x0b' || c = '\x0c' ||
  c = '\x1c' || c = '\x1d' || c = '\x1e' || c = '\x1f' || c = '\x85' || c = '\xa0' ||
  c = '\u1680' || ('\u2000' ≤ c && c ≤ '\u200A') || c = '\u2028' || c = '\u2029' ||
  c = '\u202F' || c = '\u205F' || c = '\u3000'

/-- Python `str.strip()`: drop whitespace from both ends. -/
def pyStrip (s : String) : String :=
  String.mk (((s.data.dropWhile isPySpace).reverse.dropWhile isPySpace).reverse)

/-- Truthiness of a Python `str | None` value: `None` and `""` are falsy. -/
def strTruthy : Option String → Bool
  | none => false
  | some s => !(s = "")

/-- Python `a or b` on `str | None` values. -/
def pyOr (a b : Option String) : Option String :=
  if strTruthy a then a else b

/-- Helper for `pySplitWs`: `acc` holds the current token, reversed. -/
def splitWsAux : List Char → List Char → List String
  | [], acc => if acc = [] then [] else [String.mk acc.reverse]
  | c :: rest, acc =>
    if isPySpace c then
      if acc = [] then splitWsAux rest []
      else String.mk acc.reverse :: splitWsAux rest []
    else splitWsAux rest (c :: acc)

/-- Python `bytes.split()` with no separator: split on runs of
whitespace, producing no empty tokens. -/
def pySplitWs (s : String) : List String :=
  splitWsAux s.data []

/-! ## A backtracking regex matcher for the patterns of `extract_code`

Each of the six patterns is a concatenation and alternation of
character-class literals, greedy class quantifiers, one greedy
captured class repetition, and the anchors `^` and `$` (the patterns
are compiled without `re.MULTILINE`, so `^` is start of string and `$`
is end of string or just before a final newline). -/

/-- Regex abstract syntax sufficient for the six patterns. -/
inductive RE where
  /-- empty pattern -/
  | eps : RE
  /-- `^` without MULTILINE: start of string -/
  | bos : RE
  /-- `$` without MULTILINE: end of string, or before a final newline -/
  | eol : RE
  /-- one character from a class -/
  | cls (s : Char → Bool) : RE
  /-- concatenation -/
  | seq (a b : RE) : RE
  /-- alternation, left branch preferred -/
  | alt (a b : RE) : RE
  /-- greedy `[s]*` -/
  | star (s : Char → Bool) : RE
  /-- greedy `[s]+` -/
  | plus (s : Char → Bool) : RE
  /-- greedy captured `([s]{lo,hi})` -/
  | grp (s : Char → Bool) (lo hi : Nat) : RE

/-- Greedy bounded class repetition with backtracking: prefer to
consume one more character (up to `hi`), fall back to stopping once at
least `lo` characters were consumed. -/
def repMatch (s : Char → Bool) (full : List Char) (pos lo hi : Nat)
    (k : Nat → Option (Option (List Char))) : Option (Option (List Char)) :=
  match hi with
  | 0 => if lo = 0 then k pos else none
  | hi' + 1 =>
    let more :=
      match full.get? pos with
      | some c => if s c then repMatch s full (pos + 1) (lo - 1) hi' k else none
      | none => none
    match more with
    | some r => some r
    | none => if lo = 0 then k pos else none

/-- Greedy bounded captured class repetition with backtracking,
accumulating the consumed characters. -/
def grpMatch (s : Char → Bool) (full : List Char) (pos lo hi : Nat) (acc : List Char)
    (k : Nat → List Char → Option (Option (List Char))) : Option (Option (List Char)) :=
  match hi with
  | 0 => if lo = 0 then k pos acc else none
  | hi' + 1 =>
    let more :=
      match full.get? pos with
      | some c => if s c then grpMatch s full (pos + 1) (lo - 1) hi' (acc ++ [c]) k else none
      | none => none
    match more with
    | some r => some r
    | none => if lo = 0 then k pos acc else none

/-- Backtracking matcher in continuation style.  `cap` is the value of
capture group 1 so far; the continuation receives the position after
the match and the capture.  The overall answer is `none` when the
whole attempt fails, `some cap` when it succeeds. -/
def matchFrom (full : List Char) :
    RE → Nat → Option (List Char) →
    (Nat → Option (List Char) → Option (Option (List Char))) → Option (Option (List Char))
  | .eps, pos, cap, k => k pos cap
  | .bos, pos, cap, k => if pos = 0 then k pos cap else none
  | .eol, pos, cap, k =>
    if pos = full.length || (pos + 1 = full.length && full.get? pos = some '\n') then
      k pos cap
    else none
  | .cls s, pos, cap, k =>
    match full.get? pos with
    | some c => if s c then k (pos + 1) cap else none
    | none => none
  | .seq a b, pos, cap, k =>
    matchFrom full a pos cap (fun p c => matchFrom full b p c k)
  | .alt a b, pos, cap, k =>
    match matchFrom full a pos cap k with
    | some r => some r
    | none => matchFrom full b pos cap k
  | .star s, pos, cap, k => repMatch s full pos 0 (full.length - pos) (fun p => k p cap)
  | .plus s, pos, cap, k => repMatch s full pos 1 (full.length - pos) (fun p => k p cap)
  | .grp s lo hi, pos, _cap, k => grpMatch s full pos lo hi [] (fun p acc => k p (some acc))

/-- Scan start positions left to right, as `re.search` does.  The fuel
argument is initialised to `full.length + 1`, which is exactly the
number of candidate start positions, so the fuel never runs out. -/
def searchAux (r : RE) (full : List Char) : Nat → Nat → Option (Option (List Char))
  | 0, _ => none
  | fuel + 1, pos =>
    match matchFrom full r pos none (fun _ cap => some cap) with
    | some g => some g
    | none => if pos < full.length then searchAux r full fuel (pos + 1) else none

/-- `re.search(r, text)` together with `m.group(1)`: `none` when there
is no match, `some g` when there is one, where `g` is group 1
(`none` when the group did not participate in the match). -/
def research (r : RE) (text : String) : Option (Option String) :=
  (searchAux r text.data (text.data.length + 1) 0).map (Option.map String.mk)

/-! ### The six patterns -/

/-- ASCII-case-insensitive literal character. -/
def ciChar (c : Char) : RE :=
  RE.cls (fun x => x = c.toLower || x = c.toUpper)

/-- ASCII-case-insensitive literal word. -/
def ciWord (w : String) : RE :=
  w.data.foldr (fun c r => RE.seq (ciChar c) r) RE.eps

/-- `\d` (ASCII digits). -/
def isDigitC (c : Char) : Bool := c.isDigit

/-- `[:\s]`. -/
def isColonWs (c : Char) : Bool := c = ':' || isPySpace c

/-- `[A-Z0-9]` under IGNORECASE, and `[A-Za-z0-9]`. -/
def isAsciiAlnum (c : Char) : Bool :=
  c.isDigit || ('A' ≤ c && c ≤ 'Z') || ('a' ≤ c && c ≤ 'z')

/-- `\n` as a class. -/
def nlCls : RE := RE.cls (fun c => c = '\n')

/-- Pattern 1: `(?:verification|confirm|security|auth)\s*(?:code|number|pin)[:\s]+(\d{4,8})`,
IGNORECASE. -/
def pat1 : RE :=
  RE.seq (RE.alt (ciWord ("verification"))
            (RE.alt (ciWord ("confirm")) (RE.alt (ciWord ("security")) (ciWord ("auth")))))
    (RE.seq (RE.star isPySpace)
      (RE.seq (RE.alt (ciWord ("code")) (RE.alt (ciWord ("number")) (ciWord ("pin"))))
        (RE.seq (RE.plus isColonWs) (RE.grp isDigitC 4 8))))

/-- Pattern 2: `(?:your|the|enter)\s+(?:code|pin|otp)[:\s]+(\d{4,8})`, IGNORECASE. -/
def pat2 : RE :=
  RE.seq (RE.alt (ciWord ("your")) (RE.alt (ciWord ("the")) (ciWord ("enter"))))
    (RE.seq (RE.plus isPySpace)
      (RE.seq (RE.alt (ciWord ("code")) (RE.alt (ciWord ("pin")) (ciWord ("otp"))))
        (RE.seq (RE.plus isColonWs) (RE.grp isDigitC 4 8))))

/-- Pattern 3: `(\d{4,8})\s+is\s+your\s+(?:verification|confirm|security)`, IGNORECASE. -/
def pat3 : RE :=
  RE.seq (RE.grp isDigitC 4 8)
    (RE.seq (RE.plus isPySpace)
      (RE.seq (ciWord ("is"))
        (RE.seq (RE.plus isPySpace)
          (RE.seq (ciWord ("your"))
            (RE.seq (RE.plus isPySpace)
              (RE.alt (ciWord ("verification"))
                (RE.alt (ciWord ("confirm")) (ciWord ("security")))))))))

/-- Pattern 4: `(?:^|\n)\s*(\d{4,8})\s*(?:\n|$)` (no IGNORECASE). -/
def pat4 : RE :=
  RE.seq (RE.alt RE.bos nlCls)
    (RE.seq (RE.star isPySpace)
      (RE.seq (RE.grp isDigitC 4 8)
        (RE.seq (RE.star isPySpace) (RE.alt nlCls RE.eol))))

/-- Pattern 5: `(?:code|pin|otp)[:\s]+([A-Z0-9]{4,10})`, IGNORECASE. -/
def pat5 : RE :=
  RE.seq (RE.alt (ciWord ("code")) (RE.alt (ciWord ("pin")) (ciWord ("otp"))))
    (RE.seq (RE.plus isColonWs) (RE.grp isAsciiAlnum 4 10))

/-- Pattern 6: `(?:^|\n)\s*([A-Za-z0-9]{8})\s*(?:\n|$)` (no IGNORECASE). -/
def pat6 : RE :=
  RE.seq (RE.alt RE.bos nlCls)
    (RE.seq (RE.star isPySpace)
      (RE.seq (RE.grp isAsciiAlnum 8 8)
        (RE.seq (RE.star isPySpace) (RE.alt nlCls RE.eol))))

/-- The six patterns in the order `extract_code` tries them. -/
def patterns : List RE := [pat1, pat2, pat3, pat4, pat5, pat6]

/-- `extract_code` of `fetch_verification_code.py`: try the six
patterns in order; on the first `re.search` match, return `m.group(1)`. -/
def extract_code (text : String) : Option String :=
  match research pat1 text with
  | some g => g
  | none =>
  match research pat2 text with
  | some g => g
  | none =>
  match research pat3 text with
  | some g => g
  | none =>
  match research pat4 text with
  | some g => g
  | none =>
  match research pat5 text with
  | some g => g
  | none =>
  match research pat6 text with
  | some g => g
  | none => none

example : extract_code ("Your verification code: 482913") = some ("482913") := by decide
example : extract_code ("The code is: 19284") = none := by decide
example : extract_code ("Enter code: 123456") = some ("123456") := by decide
example : extract_code ("123456789 is your verification code") = some ("23456789") := by decide
example : extract_code ("Subject\n  482913  \nbye") = some ("482913") := by decide
example : extract_code ("code: AB12CD") = some ("AB12CD") := by decide
example : extract_code ("abc\nAB12CD34\n") = some ("AB12CD34") := by decide
example : extract_code ("x 1234567890 y code: 1234") = some ("1234") := by decide
example : extract_code ("a\n 12345678901 \n") = none := by decide
example : extract_code ("security number 9999") = some ("9999") := by decide
example : extract_code ("Hi\nHello") = none := by decide

/-! ## The mailbox check `check_imap`

`check_imap` is embedded over the data its straight-line body branches
on: the search status and raw id list, the fetch status, and the
parsed message.  The transport-exception handlers at the end of the
Python function are outside the scope of the claims below, which are
all about returns from the body itself. -/

/-- One part of a multipart message, in `msg.walk()` order.  `payload`
is `part.get_payload(decode=True)` decoded with
`decode("utf-8", errors="replace")`; `none` models a `None` payload
(e.g. a multipart container). -/
structure EmailPart where
  contentType : String
  payload : Option String
deriving DecidableEq

/-- A message body: a single-part payload or a list of walked parts. -/
inductive MsgBody where
  | single (payload : Option String) : MsgBody
  | multipart (parts : List EmailPart) : MsgBody
deriving DecidableEq

/-- A fetched candidate email message. -/
structure EmailMsg where
  subject : String
  body : MsgBody
deriving DecidableEq

/-- The `for part in msg.walk()` accumulation loop of `check_imap`:
a `text/plain` part with truthy payload is always appended; a
`text/html` part is appended only while the body accumulated so far is
empty. -/
def walkBodyAux : List EmailPart → String → String
  | [], body => body
  | p :: rest, body =>
    let body' :=
      if p.contentType = "text/plain" then
        if strTruthy p.payload then body ++ p.payload.getD ("") else body
      else if p.contentType = "text/html" ∧ body = "" then
        if strTruthy p.payload then body ++ p.payload.getD ("") else body
      else body
    walkBodyAux rest body'

/-- Body extraction of `check_imap` for a parsed message. -/
def extractBody : MsgBody → String
  | .single payload => if strTruthy payload then payload.getD ("") else ""
  | .multipart parts => walkBodyAux parts ("")

/-- `combined = f"{subject}\n{body}"`, the text handed to `extract_code`. -/
def combinedText (m : EmailMsg) : String :=
  m.subject ++ "\n" ++ extractBody m.body

/-- The data one run of `check_imap`'s body branches on: search
status, the raw byte string `msg_ids[0]`, fetch status, and the
fetched message. -/
structure ImapStep where
  searchOk : Bool
  msgIds : String
  fetchOk : Bool
  msg : EmailMsg
deriving DecidableEq

/-- `check_imap` of `fetch_verification_code.py`.  The branch for a
non-empty but whitespace-only `msg_ids[0]` models the `IndexError`
raised by `split()[-1]`, which the surrounding handler converts to an
`"Error: ..."` string. -/
def checkImap (st : ImapStep) : Option String × Option String :=
  if (st.searchOk = false) ∨ st.msgIds = "" then (none, none)
  else
    match (pySplitWs st.msgIds).getLast? with
    | none => (none, some ("Error: list index out of range"))
    | some _ =>
      if st.fetchOk = false then (none, none)
      else
        let subject := st.msg.subject
        let code := extract_code (combinedText st.msg)
        if strTruthy code then (code, none)
        else (none, some ("Email found but no code extracted. Subject: " ++ subject))

/-! ### Spec-side body descriptions for claim C6 -/

/-- The body as the spec's words describe it: the decoded content of
the first plain-text part, falling back to the first HTML part if no
plain-text part exists. -/
def specFirstPartBody (parts : List EmailPart) : String :=
  match parts.find? (fun p => p.contentType == "text/plain" && strTruthy p.payload) with
  | some p => p.payload.getD ("")
  | none =>
    match parts.find? (fun p => p.contentType == "text/html" && strTruthy p.payload) with
    | some p => p.payload.getD ("")
    | none => ""

/-- Concatenation of the decoded contents of all contributing
plain-text parts, in walk order. -/
def plainConcat : List EmailPart → String
  | [] => ""
  | p :: rest =>
    if p.contentType = "text/plain" ∧ strTruthy p.payload then
      p.payload.getD ("") ++ plainConcat rest
    else plainConcat rest

/-- The HTML part the loop actually includes: the first part with a
truthy payload that is plain or HTML, when that part is HTML. -/
def leadingHtml : List EmailPart → Option String
  | [] => none
  | p :: rest =>
    if p.contentType = "text/plain" ∧ strTruthy p.payload then none
    else if p.contentType = "text/html" ∧ strTruthy p.payload then some (p.payload.getD (""))
    else leadingHtml rest

/-! ## The Fetch Process `main`

`main` is embedded as a function of the environment (the two password
variables), the timeout argument, and an oracle giving the result of
the `k`-th `check_imap` call.  The observable outcome is the ordered
list of events (mailbox polls and sentinel-file writes) and the
process exit code; the sentinel writes are the only file operations
`main` performs. -/

/-- Observable events of one run of `main`. -/
inductive FEvent where
  | poll (k : Nat) : FEvent
  | writeCode (content : String) : FEvent
  | writeError (content : String) : FEvent
deriving DecidableEq

/-- Events of a run of `main`, in order, and the process exit code. -/
structure RunResult where
  events : List FEvent
  exitCode : Nat
deriving DecidableEq

/-- The timeout sentinel message, with the last recorded error
appended when one exists (`if last_error:`). -/
def timeoutMsg (timeout : Nat) (lastError : Option String) : String :=
  let m := "No verification code found after " ++ toString timeout ++ "s."
  if strTruthy lastError then m ++ " Last error: " ++ lastError.getD ("") else m

/-- The `while elapsed < args.timeout` polling loop of `main`. -/
def fetchLoop (poll : Nat → Option String × Option String) (timeout elapsed k : Nat)
    (lastError : Option String) : RunResult :=
  if _h : elapsed < timeout then
    let res := poll k
    if strTruthy res.1 then
      { events := [.poll k, .writeCode (res.1.getD (""))], exitCode := 0 }
    else
      let le := if strTruthy res.2 then res.2 else lastError
      let r := fetchLoop poll timeout (elapsed + 5) (k + 1) le
      { events := .poll k :: r.events, exitCode := r.exitCode }
  else
    { events := [.writeError (timeoutMsg timeout lastError)], exitCode := 1 }
termination_by timeout - elapsed
decreasing_by omega

/-- The credential environment: `GMAIL_APP_PASSWORD` and
`EMAIL_PASSWORD` (`none` models an unset variable). -/
structure FetchEnv where
  gmailAppPassword : Option String
  emailPassword : Option String
deriving DecidableEq

/-- `main` of `fetch_verification_code.py`. -/
def fetchMain (env : FetchEnv) (timeout : Nat)
    (poll : Nat → Option String × Option String) : RunResult :=
  let gmailPass := pyOr env.gmailAppPassword env.emailPassword
  if strTruthy gmailPass then
    fetchLoop poll timeout 0 0 none
  else
    { events := [.writeError ("GMAIL_APP_PASSWORD not set. Cannot check email.")],
      exitCode := 1 }

/-- Number of iterations the polling loop performs when no code is
ever found, starting from a given elapsed time. -/
def iterCount (timeout elapsed : Nat) : Nat := (timeout - elapsed + 4) / 5

/-- The value of `last_error` after a number of further code-less
polls starting at index `k` with current value `le`. -/
def lastErrFrom (poll : Nat → Option String × Option String) (le : Option String)
    (k : Nat) : Nat → Option String
  | 0 => le
  | n + 1 => lastErrFrom poll (if strTruthy (poll k).2 then (poll k).2 else le) (k + 1) n

/-! ## The Hand-off Coordinator `_check_email_for_code`

The coordinator is embedded as a function of the initially existing
sentinel files, a possible spawn failure, and an oracle giving the
filesystem and child state observed at each iteration of its
sleep-poll loop.  The observable outcome is the ordered list of its
own actions (sentinel unlinks, the child spawn, child kills, sleeps)
and the returned `ActionResult`. -/

/-- What one loop iteration observes: the two sentinel files and the
child state (`childExited` is `proc.returncode is not None`). -/
structure Tick where
  codeExists : Bool
  codeContent : String
  errExists : Bool
  errContent : String
  childExited : Bool
deriving DecidableEq

/-- Actions of the coordinator, in order. -/
inductive CoEvent where
  | unlinkCode : CoEvent
  | unlinkErr : CoEvent
  | spawnChild : CoEvent
  | kill : CoEvent
  | sleep : CoEvent
deriving DecidableEq

/-- The returned `ActionResult`: success with extracted content, or an
error result. -/
inductive CoOutcome where
  | success (text : String) : CoOutcome
  | failure (text : String) : CoOutcome
deriving DecidableEq

/-- Events of a coordinator run, in order, and its outcome. -/
structure CoResult where
  events : List CoEvent
  outcome : CoOutcome
deriving DecidableEq

/-- The `while elapsed < max_wait_seconds` sleep-poll loop of
`_check_email_for_code`; `evs` is the trace so far. -/
def coordLoop (o : Nat → Tick) (maxWait : Nat) (codePath : String) (elapsed k : Nat)
    (evs : List CoEvent) : CoResult :=
  if _h : elapsed < maxWait then
    let t := o k
    if t.codeExists ∧ pyStrip t.codeContent ≠ "" then
      { events := if t.childExited then evs else evs ++ [.kill],
        outcome := .success ("Verification code: " ++ pyStrip t.codeContent) }
    else if t.errExists ∧ t.childExited then
      { events := evs,
        outcome := .failure ("Email check failed: " ++ pyStrip t.errContent) }
    else
      coordLoop o maxWait codePath (elapsed + 5) (k + 1) (evs ++ [.sleep])
  else
    { events := if (o k).childExited then evs else evs ++ [.kill],
      outcome := .failure ("No verification code found after " ++ toString maxWait ++
        "s. You can also manually write the code to: " ++ codePath) }
termination_by maxWait - elapsed
decreasing_by omega

/-- `_check_email_for_code` of `tools/browser_utils.py`: delete the
stale sentinel files, spawn the fetch child (`spawnErr` models an
exception from `create_subprocess_exec`), then poll. -/
def checkEmailForCode (initCode initErr : Bool) (spawnErr : Option String)
    (o : Nat → Tick) (maxWait : Nat) (codePath : String) : CoResult :=
  let evs0 := (if initCode then [CoEvent.unlinkCode] else []) ++
              (if initErr then [CoEvent.unlinkErr] else [])
  let evs1 := evs0 ++ [CoEvent.spawnChild]
  match spawnErr with
  | some e => { events := evs1, outcome := .failure ("Failed to spawn email checker: " ++ e) }
  | none => coordLoop o maxWait codePath 0 0 evs1

/-- Which sentinel files exist after a list of coordinator events,
starting from the given initial state (the child writes only after it
has been spawned, so before the spawn the coordinator's own unlinks
are the only changes). -/
def sentinelsAfter (initCode initErr : Bool) : List CoEvent → Bool × Bool
  | [] => (initCode, initErr)
  | e :: rest =>
    match e with
    | .unlinkCode => sentinelsAfter false initErr rest
    | .unlinkErr => sentinelsAfter initCode false rest
    | _ => sentinelsAfter initCode initErr rest

/-- Is the event a mailbox poll? -/
def FEvent.isPoll : FEvent → Bool
  | .poll _ => true
  | _ => false

/-- Is the event a write of the success sentinel file? -/
def FEvent.isWriteCode : FEvent → Bool
  | .writeCode _ => true
  | _ => false

example : toString (6 : Nat) = "6" := by decide
example : pyStrip ("  48\n ") = "48" := by decide
example : pySplitWs ("1 2 3") = ["1", "2", "3"] := by decide
example : pySplitWs ("  ") = [] := by decide

/-! ## Claims -/

/-- C8: evaluation of `extract_code` at the spec's two sample texts.
The first sample yields the expected digit run, but the second yields
no code at all: rule 2 demands punctuation or whitespace directly
between the keyword pair and the digit run, and the word "is"
intervenes.  (The code here contradicts its own pattern-2 comment,
whose example is "Your code is: 123456" and which also fails.) -/
theorem c8_extract_code_samples :
    extract_code ("Your verification code: 482913") = some ("482913") ∧
    extract_code ("The code is: 19284") = none := by
  decide

/-- C4: `check_imap` distinguishes the two cases: an OK search with an
empty id list yields `(none, none)` (not an error), while a found and
fetched message from which no rule extracts a code yields
`(none, error-string)` with the error string naming the message's
subject. -/
theorem c4_checkImap_distinguishes_cases (st : ImapStep) :
    (st.searchOk = true → st.msgIds = "" → checkImap st = (none, none)) ∧
    (st.searchOk = true → pySplitWs st.msgIds ≠ [] → st.fetchOk = true →
      extract_code (combinedText st.msg) = none →
      checkImap st =
        (none, some ("Email found but no code extracted. Subject: " ++ st.msg.subject))) := by
  constructor
  · intro _hok hempty
    unfold checkImap
    rw [if_pos (Or.inr hempty)]
  · intro hok hsplit hfetch hnone
    have hne : ¬ st.msgIds = "" := by
      intro h
      apply hsplit
      rw [h]
      decide
    unfold checkImap
    rw [if_neg (by simp [hok, hne])]
    rcases hl : (pySplitWs st.msgIds).getLast? with _ | tid
    · exact absurd (List.getLast?_eq_none_iff.mp hl) hsplit
    · simp only [hfetch, hnone]
      simp [strTruthy]

/-- Witness for C4: a mailbox with no unseen messages, and a mailbox
with one unseen message ("Welcome" / "Hello there") from which no rule
extracts a code. -/
theorem c4_checkImap_distinguishes_cases_witness :
    checkImap ⟨true, "", true, ⟨"Welcome", .single (some ("Hello there"))⟩⟩ = (none, none) ∧
    checkImap ⟨true, "1", true, ⟨"Welcome", .single (some ("Hello there"))⟩⟩ =
      (none, some ("Email found but no code extracted. Subject: Welcome")) := by
  constructor
  · exact (c4_checkImap_distinguishes_cases _).1 rfl rfl
  · exact (c4_checkImap_distinguishes_cases _).2 rfl (by decide) rfl (by decide)

/-- C10: when the search succeeds and returns message ids but the
subsequent fetch is not OK, `check_imap` returns `(none, none)` — the
very result of the no-message case, with no error string recorded. -/
theorem c10_failed_fetch_looks_like_no_message (st : ImapStep)
    (hok : st.searchOk = true) (hsplit : pySplitWs st.msgIds ≠ [])
    (hfetch : st.fetchOk = false) :
    checkImap st = (none, none) ∧
    (∀ st' : ImapStep, st'.searchOk = true → st'.msgIds = "" →
      checkImap st = checkImap st') := by
  have hne : ¬ st.msgIds = "" := by
    intro h
    apply hsplit
    rw [h]
    decide
  have hmain : checkImap st = (none, none) := by
    unfold checkImap
    rw [if_neg (by simp [hok, hne])]
    rcases hl : (pySplitWs st.msgIds).getLast? with _ | tid
    · exact absurd (List.getLast?_eq_none_iff.mp hl) hsplit
    · simp [hfetch]
  refine ⟨hmain, fun st' hok' hempty' => ?_⟩
  rw [hmain]
  unfold checkImap
  rw [if_pos (Or.inr hempty')]

/-- Witness for C10: a search that finds message "3" whose fetch then
fails, compared with an empty search result. -/
theorem c10_failed_fetch_looks_like_no_message_witness :
    checkImap ⟨true, "3", false, ⟨"S", .single none⟩⟩ = (none, none) ∧
    checkImap ⟨true, "3", false, ⟨"S", .single none⟩⟩ =
      checkImap ⟨true, "", true, ⟨"S", .single none⟩⟩ := by
  refine ⟨(c10_failed_fetch_looks_like_no_message _ rfl (by decide) rfl).1, ?_⟩
  exact (c10_failed_fetch_looks_like_no_message _ rfl (by decide) rfl).2 _ rfl rfl

/-- C5: with no truthy application password in the environment, `main`
immediately writes the error sentinel and exits with code 1, and its
event list contains no mailbox poll at all: the loop is never entered
and `check_imap` is never called. -/
theorem c5_missing_password_no_mailbox_contact (env : FetchEnv) (timeout : Nat)
    (poll : Nat → Option String × Option String)
    (h : strTruthy (pyOr env.gmailAppPassword env.emailPassword) = false) :
    fetchMain env timeout poll =
      { events := [FEvent.writeError ("GMAIL_APP_PASSWORD not set. Cannot check email.")],
        exitCode := 1 } ∧
    (fetchMain env timeout poll).events.all (fun e => !e.isPoll) = true := by
  have hmain : fetchMain env timeout poll =
      { events := [FEvent.writeError ("GMAIL_APP_PASSWORD not set. Cannot check email.")],
        exitCode := 1 } := by
    simp [fetchMain, h]
  exact ⟨hmain, by rw [hmain]; decide⟩

/-- Witness for C5: both password variables unset. -/
theorem c5_missing_password_no_mailbox_contact_witness :
    fetchMain ⟨none, none⟩ 300 (fun _ => (none, none)) =
      { events := [FEvent.writeError ("GMAIL_APP_PASSWORD not set. Cannot check email.")],
        exitCode := 1 } := by
  exact (c5_missing_password_no_mailbox_contact ⟨none, none⟩ 300 (fun _ => (none, none))
    (by decide)).1

/-- The poll events the loop emits for `n` code-less iterations
starting at poll index `k`. -/
def pollEvents (k : Nat) : Nat → List FEvent
  | 0 => []
  | n + 1 => FEvent.poll k :: pollEvents (k + 1) n

/-- One loop iteration consumes 5 seconds of budget. -/
theorem iterCount_step (timeout elapsed : Nat) (h : elapsed < timeout) :
    iterCount timeout elapsed = iterCount timeout (elapsed + 5) + 1 := by
  unfold iterCount
  rcases Nat.lt_or_ge (timeout - elapsed) 5 with h5 | h5
  · have h2 : timeout - (elapsed + 5) = 0 := by omega
    rw [h2]
    have h14 : 5 ≤ timeout - elapsed + 4 := by omega
    have h19 : timeout - elapsed + 4 < 10 := by omega
    omega
  · have heq : timeout - elapsed + 4 = timeout - (elapsed + 5) + 4 + 5 := by omega
    rw [heq, Nat.add_div_right _ (by norm_num)]

/-- Shape of every run of the polling loop: some polls, then exactly
one sentinel write as the last event, with the matching exit code. -/
theorem fetchLoop_shape (poll : Nat → Option String × Option String) (timeout : Nat) :
    ∀ d elapsed k le, timeout - elapsed ≤ d →
      ∃ pre last,
        (fetchLoop poll timeout elapsed k le).events = pre ++ [last] ∧
        pre.all FEvent.isPoll = true ∧
        (((∃ c, last = FEvent.writeCode c) ∧
            (fetchLoop poll timeout elapsed k le).exitCode = 0) ∨
         ((∃ m, last = FEvent.writeError m) ∧
            (fetchLoop poll timeout elapsed k le).exitCode = 1)) := by
  intro d
  induction d with
  | zero =>
    intro elapsed k le hd
    have hnl : ¬ elapsed < timeout := by omega
    rw [fetchLoop.eq_def]
    simp only [hnl, dite_false]
    exact ⟨[], FEvent.writeError (timeoutMsg timeout le), rfl, rfl,
      Or.inr ⟨⟨_, rfl⟩, by trivial⟩⟩
  | succ n ih =>
    intro elapsed k le hd
    by_cases hlt : elapsed < timeout
    · by_cases hc : strTruthy (poll k).1 = true
      · rw [fetchLoop.eq_def]
        simp only [hlt, dite_true, hc, if_true]
        exact ⟨[FEvent.poll k], FEvent.writeCode ((poll k).1.getD ("")), rfl, rfl,
          Or.inl ⟨⟨_, rfl⟩, by trivial⟩⟩
      · obtain ⟨pre, last, hev, hall, hdisj⟩ :=
          ih (elapsed + 5) (k + 1) (if strTruthy (poll k).2 then (poll k).2 else le)
            (by omega)
        have hstep : fetchLoop poll timeout elapsed k le =
            { events := FEvent.poll k ::
                (fetchLoop poll timeout (elapsed + 5) (k + 1)
                  (if strTruthy (poll k).2 then (poll k).2 else le)).events,
              exitCode := (fetchLoop poll timeout (elapsed + 5) (k + 1)
                  (if strTruthy (poll k).2 then (poll k).2 else le)).exitCode } := by
          rw [fetchLoop.eq_def]
          simp [hlt, hc]
        refine ⟨FEvent.poll k :: pre, last, ?_, ?_, ?_⟩
        · rw [hstep]
          simp [hev]
        · simpa [FEvent.isPoll] using hall
        · rw [hstep]
          simpa using hdisj
    · have hnl : ¬ elapsed < timeout := hlt
      rw [fetchLoop.eq_def]
      simp only [hnl, dite_false]
      exact ⟨[], FEvent.writeError (timeoutMsg timeout le), rfl, rfl,
        Or.inr ⟨⟨_, rfl⟩, by trivial⟩⟩

/-- C2: a run of `main` performs at most one sentinel write (in fact
exactly one), as the final event of the run, and its exit code matches
the sentinel written: 0 for the success sentinel, 1 for the error
sentinel. -/
theorem c2_one_final_sentinel_write (env : FetchEnv) (timeout : Nat)
    (poll : Nat → Option String × Option String) :
    ∃ pre last,
      (fetchMain env timeout poll).events = pre ++ [last] ∧
      pre.all FEvent.isPoll = true ∧
      (((∃ c, last = FEvent.writeCode c) ∧ (fetchMain env timeout poll).exitCode = 0) ∨
       ((∃ m, last = FEvent.writeError m) ∧ (fetchMain env timeout poll).exitCode = 1)) := by
  unfold fetchMain
  by_cases h : strTruthy (pyOr env.gmailAppPassword env.emailPassword) = true
  · simp only [h, if_true]
    exact fetchLoop_shape poll timeout (timeout - 0) 0 0 none (by omega)
  · simp only [eq_false_of_ne_true (by simpa using h), Bool.false_eq_true, if_false]
    exact ⟨[], FEvent.writeError ("GMAIL_APP_PASSWORD not set. Cannot check email."),
      rfl, rfl, Or.inr ⟨⟨_, rfl⟩, by trivial⟩⟩

/-- When no poll ever returns a code, the loop runs its full budget
and ends in the timeout write carrying the final `last_error`. -/
theorem fetchLoop_timeout (poll : Nat → Option String × Option String) (timeout : Nat)
    (hpoll : ∀ j, (poll j).1 = none) :
    ∀ d elapsed k le, timeout - elapsed ≤ d →
      fetchLoop poll timeout elapsed k le =
        { events := pollEvents k (iterCount timeout elapsed) ++
            [FEvent.writeError (timeoutMsg timeout
              (lastErrFrom poll le k (iterCount timeout elapsed)))],
          exitCode := 1 } := by
  intro d
  induction d with
  | zero =>
    intro elapsed k le hd
    have hnl : ¬ elapsed < timeout := by omega
    have hz : iterCount timeout elapsed = 0 := by
      unfold iterCount
      omega
    rw [fetchLoop.eq_def]
    simp only [hnl, dite_false, hz]
    rfl
  | succ n ih =>
    intro elapsed k le hd
    by_cases hlt : elapsed < timeout
    · have hc : strTruthy (poll k).1 = false := by rw [hpoll k]; rfl
      have hstep : fetchLoop poll timeout elapsed k le =
          { events := FEvent.poll k ::
              (fetchLoop poll timeout (elapsed + 5) (k + 1)
                (if strTruthy (poll k).2 then (poll k).2 else le)).events,
            exitCode := (fetchLoop poll timeout (elapsed + 5) (k + 1)
                (if strTruthy (poll k).2 then (poll k).2 else le)).exitCode } := by
        rw [fetchLoop.eq_def]
        simp [hlt, hc]
      rw [hstep, ih (elapsed + 5) (k + 1) (if strTruthy (poll k).2 then (poll k).2 else le)
        (by omega)]
      rw [iterCount_step timeout elapsed hlt]
      rfl
    · have hz : iterCount timeout elapsed = 0 := by
        unfold iterCount
        omega
      rw [fetchLoop.eq_def]
      simp only [hlt, dite_false, hz]
      rfl

/-- C3: if the password precondition holds and no mailbox check ever
returns a code, `main` polls until the budget is exhausted, then
writes the error sentinel containing the timeout message built from
the last recorded per-poll error, exits with code 1, and never emits a
success-sentinel write. -/
theorem c3_all_polls_empty_times_out (env : FetchEnv) (timeout : Nat)
    (poll : Nat → Option String × Option String)
    (hpw : strTruthy (pyOr env.gmailAppPassword env.emailPassword) = true)
    (hpoll : ∀ j, (poll j).1 = none) :
    fetchMain env timeout poll =
      { events := pollEvents 0 (iterCount timeout 0) ++
          [FEvent.writeError (timeoutMsg timeout
            (lastErrFrom poll none 0 (iterCount timeout 0)))],
        exitCode := 1 } ∧
    (fetchMain env timeout poll).events.all (fun e => !e.isWriteCode) = true := by
  have hmain : fetchMain env timeout poll =
      { events := pollEvents 0 (iterCount timeout 0) ++
          [FEvent.writeError (timeoutMsg timeout
            (lastErrFrom poll none 0 (iterCount timeout 0)))],
        exitCode := 1 } := by
    unfold fetchMain
    simp only [hpw, if_true]
    exact fetchLoop_timeout poll timeout hpoll (timeout - 0) 0 0 none (by omega)
  refine ⟨hmain, ?_⟩
  rw [hmain]
  have hpe : ∀ n k, (pollEvents k n).all (fun e => !e.isWriteCode) = true := by
    intro n
    induction n with
    | zero => intro k; rfl
    | succ m ihm => intro k; simpa [pollEvents, FEvent.isWriteCode] using ihm (k + 1)
  show (pollEvents 0 (iterCount timeout 0) ++
      [FEvent.writeError (timeoutMsg timeout
        (lastErrFrom poll none 0 (iterCount timeout 0)))]).all (fun e => !e.isWriteCode) = true
  rw [List.all_append, hpe]
  rfl

/-- Witness for C3: a set password, `timeout = 6`, and a poll oracle
that always returns `(none, none)`: two polls happen, then the error
sentinel is written with the bare timeout message and the exit code
is 1. -/
theorem c3_all_polls_empty_times_out_witness :
    fetchMain ⟨some ("pw"), none⟩ 6 (fun _ => (none, none)) =
      { events := [FEvent.poll 0, FEvent.poll 1,
          FEvent.writeError ("No verification code found after 6s.")],
        exitCode := 1 } := by
  have h := (c3_all_polls_empty_times_out ⟨some ("pw"), none⟩ 6 (fun _ => (none, none))
    (by decide) (fun _ => rfl)).1
  rw [h]
  decide

/-- The search result of rule `i + 1` of `extract_code` (0-indexed):
`none` when the rule's regex does not match, `some g` when it matches
with capture group `g`. -/
def ruleResult (i : Nat) (text : String) : Option (Option String) :=
  match i with
  | 0 => research pat1 text
  | 1 => research pat2 text
  | 2 => research pat3 text
  | 3 => research pat4 text
  | 4 => research pat5 text
  | 5 => research pat6 text
  | _ => none

/-- `ruleResult` agrees with indexing into the ordered pattern list. -/
theorem ruleResult_eq_get (text : String) (i : Nat) (h : i < patterns.length) :
    ruleResult i text = research (patterns.get ⟨i, h⟩) text := by
  have h6 : i < 6 := by simpa [patterns] using h
  interval_cases i <;> rfl

/-- C1: `extract_code` consults the six pattern rules in their fixed
order and returns the captured group of the first rule whose regex
matches, never a later one; when no rule matches it returns `none`. -/
theorem c1_first_match_wins (text : String) :
    extract_code text = (patterns.findSome? (fun p => research p text)).getD none ∧
    ∀ i, i < 6 → ∀ g : Option String,
      (∀ j, j < i → ruleResult j text = none) →
      ruleResult i text = some g →
      extract_code text = g := by
  constructor
  · unfold extract_code
    simp only [patterns, List.findSome?_cons]
    cases h1 : research pat1 text with
    | some g => simp
    | none =>
      cases h2 : research pat2 text with
      | some g => simp
      | none =>
        cases h3 : research pat3 text with
        | some g => simp
        | none =>
          cases h4 : research pat4 text with
          | some g => simp
          | none =>
            cases h5 : research pat5 text with
            | some g => simp
            | none =>
              cases h6 : research pat6 text with
              | some g => simp
              | none => simp
  · intro i hi g hearly hm
    interval_cases i
    · simp only [ruleResult] at hm
      unfold extract_code
      simp [hm]
    · have e0 := hearly 0 (by norm_num)
      simp only [ruleResult] at e0 hm
      unfold extract_code
      simp [e0, hm]
    · have e0 := hearly 0 (by norm_num)
      have e1 := hearly 1 (by norm_num)
      simp only [ruleResult] at e0 e1 hm
      unfold extract_code
      simp [e0, e1, hm]
    · have e0 := hearly 0 (by norm_num)
      have e1 := hearly 1 (by norm_num)
      have e2 := hearly 2 (by norm_num)
      simp only [ruleResult] at e0 e1 e2 hm
      unfold extract_code
      simp [e0, e1, e2, hm]
    · have e0 := hearly 0 (by norm_num)
      have e1 := hearly 1 (by norm_num)
      have e2 := hearly 2 (by norm_num)
      have e3 := hearly 3 (by norm_num)
      simp only [ruleResult] at e0 e1 e2 e3 hm
      unfold extract_code
      simp [e0, e1, e2, e3, hm]
    · have e0 := hearly 0 (by norm_num)
      have e1 := hearly 1 (by norm_num)
      have e2 := hearly 2 (by norm_num)
      have e3 := hearly 3 (by norm_num)
      have e4 := hearly 4 (by norm_num)
      simp only [ruleResult] at e0 e1 e2 e3 e4 hm
      unfold extract_code
      simp [e0, e1, e2, e3, e4, hm]

/-- Witness for C1: on "Enter code: 123456" rule 1 fails, rule 2 is
the first match (even though rule 5 would also match), and
`extract_code` returns rule 2's capture. -/
theorem c1_first_match_wins_witness :
    ruleResult 0 ("Enter code: 123456") = none ∧
    ruleResult 1 ("Enter code: 123456") = some (some ("123456")) ∧
    ruleResult 4 ("Enter code: 123456") = some (some ("123456")) ∧
    extract_code ("Enter code: 123456") = some ("123456") := by
  refine ⟨by decide, by decide, by decide, ?_⟩
  exact (c1_first_match_wins ("Enter code: 123456")).2 1 (by norm_num) (some ("123456"))
    (by intro j hj; interval_cases j; decide) (by decide)

/-- A string append is empty exactly when both sides are. -/
theorem strAppend_eq_empty_iff (a b : String) : a ++ b = "" ↔ a = "" ∧ b = "" := by
  constructor
  · intro h
    have hd : a.data ++ b.data = ([] : List Char) := by
      have := congrArg String.data h
      simpa [String.data_append] using this
    rcases List.append_eq_nil.mp hd with ⟨ha, hb⟩
    exact ⟨String.ext ha, String.ext hb⟩
  · rintro ⟨rfl, rfl⟩
    rfl

/-- A truthy payload decodes to a nonempty string. -/
theorem getD_ne_empty_of_truthy (o : Option String) (h : strTruthy o = true) :
    ¬ o.getD ("") = "" := by
  cases o with
  | none => simp [strTruthy] at h
  | some s =>
    simp only [strTruthy, Bool.not_eq_true'] at h
    simpa using of_decide_eq_false (by simpa using h)

/-- Once the accumulated body is nonempty, the walk loop appends
exactly the contributing plain-text parts and never an HTML part. -/
theorem walkBodyAux_ne_empty (parts : List EmailPart) :
    ∀ body : String, ¬ body = "" →
      walkBodyAux parts body = body ++ plainConcat parts := by
  induction parts with
  | nil =>
    intro body _h
    simp [walkBodyAux, plainConcat, String.append_empty]
  | cons p rest ih =>
    intro body h
    by_cases hct : p.contentType = "text/plain"
    · by_cases htr : strTruthy p.payload = true
      · have hbody' : ¬ (body ++ p.payload.getD ("")) = "" := by
          rw [strAppend_eq_empty_iff]
          rintro ⟨hb, _⟩
          exact h hb
        calc walkBodyAux (p :: rest) body
            = walkBodyAux rest (body ++ p.payload.getD ("")) := by
              simp [walkBodyAux, hct, htr]
          _ = (body ++ p.payload.getD ("")) ++ plainConcat rest := ih _ hbody'
          _ = body ++ (p.payload.getD ("") ++ plainConcat rest) := by
              rw [String.append_assoc]
          _ = body ++ plainConcat (p :: rest) := by
              simp [plainConcat, hct, htr]
      · calc walkBodyAux (p :: rest) body
            = walkBodyAux rest body := by simp [walkBodyAux, hct, htr]
          _ = body ++ plainConcat rest := ih _ h
          _ = body ++ plainConcat (p :: rest) := by simp [plainConcat, hct, htr]
    · have hcond : ¬ (p.contentType = "text/html" ∧ body = "") := by
        rintro ⟨_, hb⟩
        exact h hb
      calc walkBodyAux (p :: rest) body
          = walkBodyAux rest body := by simp [walkBodyAux, hct, hcond]
        _ = body ++ plainConcat rest := ih _ h
        _ = body ++ plainConcat (p :: rest) := by simp [plainConcat, hct]

/-- The body the walk loop builds, in closed form: the contributing
HTML part, if one precedes every contributing plain-text part,
followed by the concatenation of all contributing plain-text parts. -/
theorem walkBody_closed_form (parts : List EmailPart) :
    walkBodyAux parts ("") = (leadingHtml parts).getD ("") ++ plainConcat parts := by
  induction parts with
  | nil => rfl
  | cons p rest ih =>
    by_cases hct : p.contentType = "text/plain"
    · by_cases htr : strTruthy p.payload = true
      · have hne : ¬ ("" ++ p.payload.getD ("")) = "" := by
          rw [String.empty_append]
          exact getD_ne_empty_of_truthy _ htr
        calc walkBodyAux (p :: rest) ""
            = walkBodyAux rest ("" ++ p.payload.getD ("")) := by
              simp [walkBodyAux, hct, htr]
          _ = ("" ++ p.payload.getD ("")) ++ plainConcat rest := walkBodyAux_ne_empty _ _ hne
          _ = (leadingHtml (p :: rest)).getD ("") ++ plainConcat (p :: rest) := by
              simp [leadingHtml, plainConcat, hct, htr, String.empty_append]
      · calc walkBodyAux (p :: rest) ""
            = walkBodyAux rest ("") := by simp [walkBodyAux, hct, htr]
          _ = (leadingHtml rest).getD ("") ++ plainConcat rest := ih
          _ = (leadingHtml (p :: rest)).getD ("") ++ plainConcat (p :: rest) := by
              simp [leadingHtml, plainConcat, hct, htr]
    · by_cases hh : p.contentType = "text/html"
      · by_cases htr : strTruthy p.payload = true
        · have hne : ¬ ("" ++ p.payload.getD ("")) = "" := by
            rw [String.empty_append]
            exact getD_ne_empty_of_truthy _ htr
          calc walkBodyAux (p :: rest) ""
              = walkBodyAux rest ("" ++ p.payload.getD ("")) := by
                simp [walkBodyAux, hct, hh, htr]
            _ = ("" ++ p.payload.getD ("")) ++ plainConcat rest := walkBodyAux_ne_empty _ _ hne
            _ = (leadingHtml (p :: rest)).getD ("") ++ plainConcat (p :: rest) := by
                simp [leadingHtml, plainConcat, hct, hh, htr, String.empty_append]
        · calc walkBodyAux (p :: rest) ""
              = walkBodyAux rest ("") := by simp [walkBodyAux, hct, hh, htr]
            _ = (leadingHtml rest).getD ("") ++ plainConcat rest := ih
            _ = (leadingHtml (p :: rest)).getD ("") ++ plainConcat (p :: rest) := by
                simp [leadingHtml, plainConcat, hct, hh, htr]
      · calc walkBodyAux (p :: rest) ""
            = walkBodyAux rest ("") := by simp [walkBodyAux, hct, hh]
          _ = (leadingHtml rest).getD ("") ++ plainConcat rest := ih
          _ = (leadingHtml (p :: rest)).getD ("") ++ plainConcat (p :: rest) := by
              simp [leadingHtml, plainConcat, hct, hh]

/-- C6 counterexample: a multipart message with two plain-text parts.
The code passes the concatenation of both parts to the extractor, not
the first plain-text part alone, so the text handed to the extractor
differs from the one the claim describes. -/
theorem c6_counterexample :
    combinedText ⟨"Subj", .multipart
        [⟨"text/plain", some ("first part")⟩, ⟨"text/plain", some (" second")⟩]⟩ ≠
      "Subj" ++ "\n" ++ specFirstPartBody
        [⟨"text/plain", some ("first part")⟩, ⟨"text/plain", some (" second")⟩] := by
  decide

/-- C6 amended: for a multipart message, the body handed to the Code
Extractor is the concatenation of the decoded contents of ALL
contributing plain-text parts in walk order, preceded by the first
contributing HTML part exactly when that part occurs before every
contributing plain-text part (the loop adds an HTML part only while
the body so far is empty); the text handed to the extractor is the
subject, a newline, then that body. -/
theorem c6_amended_multipart_body (subject : String) (parts : List EmailPart) :
    combinedText ⟨subject, .multipart parts⟩ =
      subject ++ "\n" ++ ((leadingHtml parts).getD ("") ++ plainConcat parts) := by
  simp only [combinedText, extractBody]
  rw [walkBody_closed_form]

/-- One quiet iteration of the coordinator loop: no actionable code
sentinel, no actionable error sentinel; the loop sleeps and goes on. -/
theorem coordLoop_step (o : Nat → Tick) (maxWait : Nat) (codePath : String)
    (elapsed k : Nat) (evs : List CoEvent) (hlt : elapsed < maxWait)
    (hnc : ¬ ((o k).codeExists = true ∧ pyStrip ((o k).codeContent) ≠ ""))
    (hne : ¬ ((o k).errExists = true ∧ (o k).childExited = true)) :
    coordLoop o maxWait codePath elapsed k evs =
      coordLoop o maxWait codePath (elapsed + 5) (k + 1) (evs ++ [CoEvent.sleep]) := by
  rw [coordLoop.eq_def]
  simp only [hlt, dite_true]
  rw [if_neg hnc, if_neg hne]

/-- The error-return iteration of the coordinator loop. -/
theorem coordLoop_err_step (o : Nat → Tick) (maxWait : Nat) (codePath : String)
    (elapsed k : Nat) (evs : List CoEvent) (hlt : elapsed < maxWait)
    (hnc : ¬ ((o k).codeExists = true ∧ pyStrip ((o k).codeContent) ≠ ""))
    (he : (o k).errExists = true ∧ (o k).childExited = true) :
    coordLoop o maxWait codePath elapsed k evs =
      { events := evs,
        outcome := CoOutcome.failure ("Email check failed: " ++ pyStrip ((o k).errContent)) } := by
  rw [coordLoop.eq_def]
  simp only [hlt, dite_true]
  rw [if_neg hnc, if_pos he]

/-- The coordinator loop only ever appends to its event trace. -/
theorem coordLoop_events_extend (o : Nat → Tick) (maxWait : Nat) (codePath : String) :
    ∀ d elapsed k evs, maxWait - elapsed ≤ d →
      ∃ tail, (coordLoop o maxWait codePath elapsed k evs).events = evs ++ tail := by
  intro d
  induction d with
  | zero =>
    intro elapsed k evs hd
    have hnl : ¬ elapsed < maxWait := by omega
    rw [coordLoop.eq_def]
    simp only [hnl, dite_false]
    by_cases hch : (o k).childExited = true
    · exact ⟨[], by simp [hch]⟩
    · exact ⟨[CoEvent.kill], by simp [hch]⟩
  | succ n ih =>
    intro elapsed k evs hd
    by_cases hlt : elapsed < maxWait
    · rw [coordLoop.eq_def]
      simp only [hlt, dite_true]
      by_cases hc1 : (o k).codeExists = true ∧ pyStrip ((o k).codeContent) ≠ ""
      · rw [if_pos hc1]
        by_cases hch : (o k).childExited = true
        · rw [if_pos hch]
          exact ⟨[], by simp⟩
        · rw [if_neg hch]
          exact ⟨[CoEvent.kill], rfl⟩
      · rw [if_neg hc1]
        by_cases hc2 : (o k).errExists = true ∧ (o k).childExited = true
        · rw [if_pos hc2]
          exact ⟨[], by simp⟩
        · rw [if_neg hc2]
          obtain ⟨tail, ht⟩ := ih (elapsed + 5) (k + 1) (evs ++ [CoEvent.sleep]) (by omega)
          exact ⟨CoEvent.sleep :: tail, by rw [ht, List.append_assoc]; rfl⟩
    · rw [coordLoop.eq_def]
      simp only [hlt, dite_false]
      by_cases hch : (o k).childExited = true
      · exact ⟨[], by simp [hch]⟩
      · exact ⟨[CoEvent.kill], by simp [hch]⟩

/-- C7: in every execution the coordinator's trace is the unlinks of
whichever sentinel files pre-existed, then the spawn of the child,
then the rest; the pre-spawn part of the trace contains no spawn and
leaves both sentinel files deleted, so the child is never spawned
while a stale sentinel still exists. -/
theorem c7_unlink_before_spawn (initCode initErr : Bool) (spawnErr : Option String)
    (o : Nat → Tick) (maxWait : Nat) (codePath : String) :
    ∃ rest,
      (checkEmailForCode initCode initErr spawnErr o maxWait codePath).events =
        ((if initCode then [CoEvent.unlinkCode] else []) ++
         (if initErr then [CoEvent.unlinkErr] else [])) ++ CoEvent.spawnChild :: rest ∧
      ((if initCode then [CoEvent.unlinkCode] else []) ++
       (if initErr then [CoEvent.unlinkErr] else [])).contains CoEvent.spawnChild = false ∧
      sentinelsAfter initCode initErr
        ((if initCode then [CoEvent.unlinkCode] else []) ++
         (if initErr then [CoEvent.unlinkErr] else [])) = (false, false) := by
  have hcon : ((if initCode then [CoEvent.unlinkCode] else []) ++
      (if initErr then [CoEvent.unlinkErr] else [])).contains CoEvent.spawnChild = false := by
    cases initCode <;> cases initErr <;> decide
  have hsent : sentinelsAfter initCode initErr
      ((if initCode then [CoEvent.unlinkCode] else []) ++
       (if initErr then [CoEvent.unlinkErr] else [])) = (false, false) := by
    cases initCode <;> cases initErr <;> decide
  cases spawnErr with
  | some e =>
    refine ⟨[], ?_, hcon, hsent⟩
    simp [checkEmailForCode, List.append_assoc]
  | none =>
    obtain ⟨tail, ht⟩ := coordLoop_events_extend o maxWait codePath (maxWait - 0) 0 0
      (((if initCode then [CoEvent.unlinkCode] else []) ++
        (if initErr then [CoEvent.unlinkErr] else [])) ++ [CoEvent.spawnChild]) (by omega)
    refine ⟨tail, ?_, hcon, hsent⟩
    simp only [checkEmailForCode]
    rw [ht, List.append_assoc]
    rfl

/-- Runs of the coordinator loop depend only on the ticks from the
current index on. -/
theorem coordLoop_congr (o o' : Nat → Tick) (maxWait : Nat) (codePath : String) :
    ∀ d elapsed k evs, maxWait - elapsed ≤ d → (∀ j, k ≤ j → o j = o' j) →
      coordLoop o maxWait codePath elapsed k evs =
        coordLoop o' maxWait codePath elapsed k evs := by
  intro d
  induction d with
  | zero =>
    intro elapsed k evs hd hag
    have hnl : ¬ elapsed < maxWait := by omega
    rw [coordLoop.eq_def]
    conv_rhs => rw [coordLoop.eq_def]
    simp only [hnl, dite_false]
    rw [hag k (Nat.le_refl k)]
  | succ n ih =>
    intro elapsed k evs hd hag
    by_cases hlt : elapsed < maxWait
    · have hk : o k = o' k := hag k (Nat.le_refl k)
      rw [coordLoop.eq_def]
      conv_rhs => rw [coordLoop.eq_def]
      simp only [hlt, dite_true, hk]
      by_cases hc1 : (o' k).codeExists = true ∧ pyStrip ((o' k).codeContent) ≠ ""
      · rw [if_pos hc1, if_pos hc1]
      · rw [if_neg hc1, if_neg hc1]
        by_cases hc2 : (o' k).errExists = true ∧ (o' k).childExited = true
        · rw [if_pos hc2, if_pos hc2]
        · rw [if_neg hc2, if_neg hc2]
          exact ih (elapsed + 5) (k + 1) (evs ++ [CoEvent.sleep]) (by omega)
            (fun j hj => hag j (by omega))
    · rw [coordLoop.eq_def]
      conv_rhs => rw [coordLoop.eq_def]
      simp only [hlt, dite_false]
      rw [hag k (Nat.le_refl k)]

/-- C9: at an iteration that sees `verification_code.txt` with content
that strips to the empty string, the coordinator does not treat it as
success: when the error sentinel is not actionable it just sleeps and
continues (no return, no kill, no unlink), and in every case the run
is identical to one in which the code sentinel does not exist at that
iteration. -/
theorem c9_empty_code_sentinel (o : Nat → Tick) (maxWait : Nat) (codePath : String)
    (elapsed k : Nat) (evs : List CoEvent)
    (hlt : elapsed < maxWait)
    (hempty : pyStrip ((o k).codeContent) = "") :
    (¬ ((o k).errExists = true ∧ (o k).childExited = true) →
      coordLoop o maxWait codePath elapsed k evs =
        coordLoop o maxWait codePath (elapsed + 5) (k + 1) (evs ++ [CoEvent.sleep])) ∧
    coordLoop o maxWait codePath elapsed k evs =
      coordLoop (fun j => if j = k then { o k with codeExists := false } else o j)
        maxWait codePath elapsed k evs := by
  have hc1 : ¬ ((o k).codeExists = true ∧ pyStrip ((o k).codeContent) ≠ "") := by
    rintro ⟨_, hne⟩
    exact hne hempty
  constructor
  · intro herr
    exact coordLoop_step o maxWait codePath elapsed k evs hlt hc1 herr
  · set o' : Nat → Tick := fun j => if j = k then { o k with codeExists := false } else o j
      with ho'
    have hok : o' k = { o k with codeExists := false } := by
      rw [ho']
      simp
    have hnc' : ¬ ((o' k).codeExists = true ∧ pyStrip ((o' k).codeContent) ≠ "") := by
      rw [hok]
      rintro ⟨hf, _⟩
      simp at hf
    by_cases herr : (o k).errExists = true ∧ (o k).childExited = true
    · have herr' : (o' k).errExists = true ∧ (o' k).childExited = true := by
        rw [hok]
        exact herr
      rw [coordLoop_err_step o maxWait codePath elapsed k evs hlt hc1 herr,
        coordLoop_err_step o' maxWait codePath elapsed k evs hlt hnc' herr']
      rw [hok]
    · have herr2' : ¬ ((o' k).errExists = true ∧ (o' k).childExited = true) := by
        rw [hok]
        exact herr
      rw [coordLoop_step o maxWait codePath elapsed k evs hlt hc1 herr,
        coordLoop_step o' maxWait codePath elapsed k evs hlt hnc' herr2']
      exact coordLoop_congr o o' maxWait codePath (maxWait - (elapsed + 5)) (elapsed + 5)
        (k + 1) (evs ++ [CoEvent.sleep]) (by omega)
        (fun j hj => by
          show o j = if j = k then { o k with codeExists := false } else o j
          rw [if_neg (by omega : ¬ j = k)])

/-- Witness for C9: a tick with an existing code sentinel whose
content is only whitespace, no error sentinel, and a running child. -/
theorem c9_empty_code_sentinel_witness :
    coordLoop (fun _ => ⟨true, "  ", false, "", false⟩) 5 ("path") 0 0 [] =
      coordLoop (fun _ => ⟨true, "  ", false, "", false⟩) 5 ("path") 5 1 [CoEvent.sleep] ∧
    coordLoop (fun _ => ⟨true, "  ", false, "", false⟩) 5 ("path") 0 0 [] =
      coordLoop (fun j => if j = 0 then
          { (fun _ : Nat => (⟨true, "  ", false, "", false⟩ : Tick)) 0 with codeExists := false }
          else (fun _ : Nat => (⟨true, "  ", false, "", false⟩ : Tick)) j) 5 ("path") 0 0 [] := by
  have h := c9_empty_code_sentinel (fun _ => ⟨true, "  ", false, "", false⟩) 5 ("path") 0 0 []
    (by norm_num) (by decide)
  exact ⟨h.1 (by simp), h.2⟩
